import Mathlib

/-
A shallow embedding of the CPA repository (files cpa/_module.py and cpa/_task.py).

Tensors are modelled over the rationals: a per-cell vector is a list of rationals
and a batched tensor is a list of such rows.  Learned sub-networks (the encoders,
the perturbation network, the embedding tables) and the library numerics
(log, the distribution log-probabilities, the torchmetrics scores) are external
collaborators per the spec and enter the embedding as opaque function fields or
explicit arguments.
-/

set_option autoImplicit false

abbrev Vec : Type := List ℚ

abbrev Mat : Type := List Vec

/-- Elementwise sum of two equally shaped vectors. -/
def vadd (a b : Vec) : Vec := List.zipWith (fun s t => s + t) a b

/-- Row-wise elementwise sum of two equally shaped matrices. -/
def madd (A B : Mat) : Mat := List.zipWith vadd A B

/-- Scalar multiple of a vector. -/
def smulV (c : ℚ) (v : Vec) : Vec := v.map (fun t => c * t)

/-- Scalar multiple of a matrix. -/
def smulM (c : ℚ) (A : Mat) : Mat := A.map (fun r => smulV c r)

/-- Sum of the entries of a vector; models tensor.sum(dim=1) applied to one row. -/
def vsum (v : Vec) : ℚ := v.foldr (fun s t => s + t) 0

/-- Modelled from the spec: the batch key constants CPA_REGISTRY_KEYS live in
cpa/_utils.py, which is not among the given sources; section 3 of the spec only
requires a mapping with fixed distinct keys, so concrete names are fixed here. -/
def X_KEY : String := "X"

/-- Modelled from the spec: see X_KEY. -/
def PERTURBATION_KEY : String := "perturbation"

/-- Modelled from the spec: see X_KEY. -/
def PERTURBATIONS : String := "perturbations"

/-- Modelled from the spec: see X_KEY. -/
def PERTURBATIONS_DOSAGES : String := "perturbations_dosages"

/-- A batch dictionary: string keys to batched tensors. -/
abbrev Tensors : Type := List (String × Mat)

/-- Dictionary read.  Python raises KeyError on a missing key; every claim below
only reads keys that are present, so the default empty matrix is never hit. -/
def tget : Tensors → String → Mat
  | [], _ => []
  | kv :: rest, key => if key = kv.1 then kv.2 else tget rest key

/-- Dictionary write as a functional update; a later write shadows earlier entries. -/
def tset (t : Tensors) (key : String) (v : Mat) : Tensors := (key, v) :: t

/-- The CPAModule state after a successful __init__ (cpa/_module.py lines 49-175).
covars_encoder maps each covariate name to the count of its unique values
(len(unique_covars) in the source).  encoder stands for either encoder variant
(line 89-114), library_encoder for the library-size head (line 122-129), and
torchLog for torch.log.  pert_network is modelled from the spec, section 4.2:
the PerturbationNetwork of cpa/_utils.py is not among the given sources; per the
spec it maps the per-cell perturbation identifiers and dosages to a single latent
vector of dimension n_latent per cell (combinatorial perturbations are summed
internally). -/
structure CPAModule where
  n_genes : Nat
  n_perts : Nat
  n_latent : Nat
  recon_loss : String
  doser_type : String
  variational : Bool
  covars_encoder : List (String × Nat)
  encoder : Vec → Vec
  library_encoder : Vec → ℚ
  pert_network : Vec → Vec → Vec
  covars_embeddings : String → Nat → Vec
  torchLog : ℚ → ℚ

/-- The per-cell inputs assembled by _get_inference_input (lines 210-233):
expression, true and mixup perturbation identifiers and dosages, and the true
and mixup covariate category index for each covariate name. -/
structure InferenceIn where
  x : Vec
  pertsTrue : Vec
  dosesTrue : Vec
  pertsMixup : Vec
  dosesMixup : Vec
  covars : String → Nat
  covarsMixup : String → Nat

/-- The per-cell dictionary returned by CPAModule.inference (lines 284-293).
z_pert is the scalar z_pert.sum(dim=1) of the source, the sum of the latent
coordinates of the perturbation vector for this cell. -/
structure InferenceOut where
  z : Vec
  z_basal : Vec
  z_covs : Vec
  z_pert : ℚ
  library : Option ℚ
  mixup_lambda : ℚ

/-- The perturbation latent vector computed inside inference (lines 266-271):
the true-assignment latent, blended with the mixup-assignment latent exactly
when mixup_lambda < 1. -/
def zPertVec (m : CPAModule) (inp : InferenceIn) (lam : ℚ) : Vec :=
  let zpTrue := m.pert_network inp.pertsTrue inp.dosesTrue
  if lam < 1 then
    vadd (smulV lam zpTrue) (smulV (1 - lam) (m.pert_network inp.pertsMixup inp.dosesMixup))
  else zpTrue

/-- The covariate loop of inference (lines 273-280): each covariate embedding is
blended with its mixup embedding exactly when the covariate has more than one
category, and accumulated into a running sum started at zeros_like(z_basal). -/
def zCovsLoop (m : CPAModule) (lam : ℚ) (cov covM : String → Nat) :
    List (String × Nat) → Vec → Vec
  | [], acc => acc
  | kv :: rest, acc =>
    let zCov0 := m.covars_embeddings kv.1 (cov kv.1)
    let zCov :=
      if 1 < kv.2 then
        vadd (smulV lam zCov0) (smulV (1 - lam) (m.covars_embeddings kv.1 (covM kv.1)))
      else zCov0
    zCovsLoop m lam cov covM rest (vadd acc zCov)

/-- Per-cell embedding of CPAModule.inference (lines 235-293) at n_samples = 1.
For count likelihoods the input is log-transformed (line 249) and a library size
is estimated (line 250); the n_samples > 1 variational re-sampling (lines
260-264) draws from external distributions and is outside this deterministic
embedding.  The returned z_pert field is vsum of the perturbation vector,
mirroring z_pert.sum(dim=1) on line 288. -/
def inference (m : CPAModule) (inp : InferenceIn) (lam : ℚ) : InferenceOut :=
  let xt := if m.recon_loss ∈ ["nb", "zinb"] then inp.x.map (fun t => m.torchLog (1 + t)) else inp.x
  let library := if m.recon_loss ∈ ["nb", "zinb"] then some (m.library_encoder xt) else none
  let z_basal := m.encoder xt
  let z_pert := zPertVec m inp lam
  let z_covs := zCovsLoop m lam inp.covars inp.covarsMixup m.covars_encoder
    (z_basal.map (fun _ => (0 : ℚ)))
  { z := vadd (vadd z_basal z_pert) z_covs
    z_basal := z_basal
    z_covs := z_covs
    z_pert := vsum z_pert
    library := library
    mixup_lambda := lam }

/-- A concrete module used in counterexamples and witnesses. -/
def cm1 : CPAModule :=
  { n_genes := 2, n_perts := 1, n_latent := 2, recon_loss := "gauss",
    doser_type := "logsigm", variational := false,
    covars_encoder := [("cvbatch", 2)],
    encoder := fun _ => [0, 0], library_encoder := fun _ => 0,
    pert_network := fun _ _ => [1, 2],
    covars_embeddings := fun _ _ => [0, 0],
    torchLog := fun t => t }

/-- cm1 with a different perturbation network whose latent vector has the same
coordinate sum. -/
def cm2 : CPAModule := { cm1 with pert_network := fun _ _ => [0, 3] }

/-- A concrete per-cell inference input. -/
def cinp : InferenceIn :=
  { x := [0, 0], pertsTrue := [0], dosesTrue := [1], pertsMixup := [0], dosesMixup := [1],
    covars := fun _ => 0, covarsMixup := fun _ => 0 }

/-- Row indexing of a batched tensor: x[perm] in the source.  A permutation of
the batch row indices is supplied by the external RNG. -/
def indexRows (x : Mat) (perm : List Nat) : Mat := perm.map (fun i => x.getD i [])

/-- The covariate loop of mixup_data (lines 205-206): each covariate field is
stored again under the suffixed key, permuted. -/
def mixupCovarLoop : List (String × Nat) → List Nat → Tensors → Tensors
  | [], _, t => t
  | kv :: rest, perm, t =>
    mixupCovarLoop rest perm (tset t (kv.1 ++ "_mixup") (indexRows (tget t kv.1) perm))

/-- The interpolation weight of mixup_data (lines 181-186): alpha is clamped to
be non-negative, alpha = 0 forces lambda = 1, and otherwise lambda is the
Beta(alpha, alpha) draw supplied by the external RNG. -/
def mixupLambda (alpha betaSample : ℚ) : ℚ :=
  if max 0 alpha = 0 then 1 else betaSample

/-- The dictionary updates of mixup_data (lines 188-207) at a given lambda:
only the expression field is blended; every other field is stored unblended
under a suffixed mixup key, permuted by the RNG permutation perm. -/
def mixupApply (m : CPAModule) (tensors : Tensors) (perm : List Nat) (lam : ℚ) : Tensors :=
  let x := tget tensors X_KEY
  let yPerts := tget tensors PERTURBATION_KEY
  let perts := tget tensors PERTURBATIONS
  let doses := tget tensors PERTURBATIONS_DOSAGES
  let xPerm := indexRows x perm
  let mixedX := madd (smulM lam x) (smulM (1 - lam) xPerm)
  let t1 := tset tensors X_KEY mixedX
  let t2 := tset t1 (X_KEY ++ "_true") x
  let t3 := tset t2 (X_KEY ++ "_mixup") xPerm
  let t4 := tset t3 (PERTURBATION_KEY ++ "_mixup") (indexRows yPerts perm)
  let t5 := tset t4 (PERTURBATIONS ++ "_mixup") (indexRows perts perm)
  let t6 := tset t5 (PERTURBATIONS_DOSAGES ++ "_mixup") (indexRows doses perm)
  mixupCovarLoop m.covars_encoder perm t6

/-- CPAModule.mixup_data (lines 177-208): the updated dictionary and lambda. -/
def mixup_data (m : CPAModule) (tensors : Tensors) (alpha : ℚ) (perm : List Nat)
    (betaSample : ℚ) : Tensors × ℚ :=
  (mixupApply m tensors perm (mixupLambda alpha betaSample), mixupLambda alpha betaSample)

/-- The keys written by mixup_data; every key outside this list is untouched. -/
def mixupWrittenKeys (m : CPAModule) : List String :=
  [X_KEY, X_KEY ++ "_true", X_KEY ++ "_mixup", PERTURBATION_KEY ++ "_mixup",
    PERTURBATIONS ++ "_mixup", PERTURBATIONS_DOSAGES ++ "_mixup"]
    ++ m.covars_encoder.map (fun kv => kv.1 ++ "_mixup")

/-- The branch selected by CPATrainingPlan.training_step (cpa/_task.py lines
230-261): warmup while current_epoch < n_epochs_warmup, otherwise the adversary
branch exactly when iter_count % adversary_steps is nonzero, else the model
branch. -/
inductive Branch where
  | warmup
  | adversary
  | model
deriving DecidableEq

/-- The three optimizers returned by configure_optimizers (line 210/221). -/
inductive Opt where
  | autoencoder
  | adversaryOpt
  | dosers
deriving DecidableEq

/-- The objective handed to manual_backward in each branch (lines 239, 245, 259). -/
inductive LossExpr where
  | reconOnly
  | advPlusPenalty
  | reconMinusRegAdv
deriving DecidableEq

/-- Branch selection of training_step as a function of the two counters. -/
def trainingBranch (nEpochsWarmup advSteps epoch iterCount : Nat) : Branch :=
  if nEpochsWarmup ≤ epoch then
    if iterCount % advSteps ≠ 0 then Branch.adversary else Branch.model
  else Branch.warmup

/-- The branches taken over n consecutive training steps; iter_count increases
by one per step (line 263). -/
def branchSeq (nEpochsWarmup advSteps epoch start n : Nat) : List Branch :=
  (List.range n).map (fun i => trainingBranch nEpochsWarmup advSteps epoch (start + i))

/-- Which optimizers call step() in each branch (lines 240, 246-247, 260-261).
In the warmup branch the source steps opt and opt_adv; opt_dosers is never
stepped there. -/
def stepsOf : Branch → List Opt
  | Branch.adversary => [Opt.adversaryOpt]
  | Branch.model => [Opt.autoencoder, Opt.dosers]
  | Branch.warmup => [Opt.autoencoder, Opt.adversaryOpt]

/-- Which optimizers call zero_grad() in each branch (lines 238, 243-244,
257-258). -/
def zeroGradsOf : Branch → List Opt
  | Branch.adversary => [Opt.adversaryOpt]
  | Branch.model => [Opt.autoencoder, Opt.dosers]
  | Branch.warmup => [Opt.autoencoder, Opt.dosers]

/-- The objective backpropagated in each branch. -/
def backpropOf : Branch → LossExpr
  | Branch.warmup => LossExpr.reconOnly
  | Branch.adversary => LossExpr.advPlusPenalty
  | Branch.model => LossExpr.reconMinusRegAdv

/-- The adversarial metric entries produced in the warmup branch
(lines 252-255): the four fixed keys and two keys per covariate, all 0. -/
def warmupAdvResults (covars : List (String × Nat)) : List (String × ℚ) :=
  [("adv_loss", 0), ("adv_drugs", 0), ("penalty_adv", 0), ("penalty_drugs", 0)]
    ++ covars.flatMap (fun kv => [("adv_" ++ kv.1, (0 : ℚ)), ("penalty_" ++ kv.1, (0 : ℚ))])

/-- A Python value flowing through the training plan: a scalar tensor, or the
2-tuple that CPAModule.loss returns (line 347). -/
inductive PyVal where
  | tensor : ℚ → PyVal
  | pair : ℚ → ℚ → PyVal
deriving DecidableEq

/-- CPAModule.loss (lines 331-347): returns the PAIR (recon_loss, kl_loss);
kl_loss is zeros_like(recon_loss) when the module is not variational.  The
log-probability and KL numerics come from the external distribution library and
enter as the recon and kl arguments. -/
def lossFn (m : CPAModule) (recon kl : ℚ) : PyVal :=
  PyVal.pair recon (if m.variational then kl else 0)

/-- tensor.item(): a Python tuple has no item attribute. -/
def pyItem : PyVal → Except String ℚ
  | PyVal.tensor q => Except.ok q
  | PyVal.pair _ _ => Except.error "AttributeError: item"

/-- manual_backward calls .backward() on its argument: a tuple has none. -/
def manualBackward : PyVal → Except String Unit
  | PyVal.tensor _ => Except.ok ()
  | PyVal.pair _ _ => Except.error "AttributeError: backward"

/-- Tensor subtraction; subtracting with a tuple operand is a TypeError. -/
def pySub : PyVal → PyVal → Except String PyVal
  | PyVal.tensor s, PyVal.tensor t => Except.ok (PyVal.tensor (s - t))
  | _, _ => Except.error "TypeError: sub"

/-- The attribute names bound on self by CPAModule.__init__ (lines 80-175):
px_r and library_encoder exist only for the count likelihoods (lines 117-139),
otherwise only the Gaussian decoder (lines 141-150). -/
def moduleAttrsCommon : List String :=
  ["n_genes", "n_perts", "n_latent", "recon_loss", "doser_type", "variational",
    "covars_encoder", "encoder"]

/-- The attribute names bound after the decoder setup (lines 157-175). -/
def moduleAttrsTail : List String := ["pert_network", "covars_embeddings", "metrics"]

/-- All attributes a constructed CPAModule instance carries. -/
def moduleAttrs (m : CPAModule) : List String :=
  moduleAttrsCommon
    ++ (if m.recon_loss ∈ ["zinb", "nb"] then ["px_r", "library_encoder", "decoder"]
        else ["decoder"])
    ++ moduleAttrsTail

/-- The module attributes read by CPATrainingPlan.configure_optimizers, in
evaluation order (cpa/_task.py lines 174-191): encoder, decoder, then
drug_network for the autoencoder optimizer, covars_embedding, then the two
classifier attributes for the adversary optimizer, then drug_network again for
the doser optimizer. -/
def configureOptimizersAccessOrder : List String :=
  ["encoder", "decoder", "drug_network", "covars_embedding", "drugs_classifier",
    "covars_classifiers", "drug_network"]

/-- configure_optimizers as attribute resolution: the first access to a name the
module does not define raises AttributeError. -/
def configureOptimizersRun (m : CPAModule) : Except String Unit :=
  match configureOptimizersAccessOrder.find? (fun s => !(moduleAttrs m).contains s) with
  | some s => Except.error ("AttributeError: " ++ s)
  | none => Except.ok ()

/-- Python str.lower, written over the character list so that it evaluates;
all strings involved are ASCII, where Char.toLower agrees with Python. -/
def pyLower (s : String) : String := String.mk (s.data.map Char.toLower)

/-- CPAModule.r2_metric (lines 349-396): the mode argument is lowercased and
asserted to lie in the singleton list on line 351 before anything else runs.
The per-gene metric numerics (the external torchmetrics r2_score over the
decoded likelihood, lines 353-396) enter as the r2vals argument. -/
def r2Metric (_m : CPAModule) (r2vals : ℚ × ℚ) (mode : String) : Except String (ℚ × ℚ) :=
  if pyLower mode ∈ ["direct"] then Except.ok r2vals
  else Except.error "AssertionError: mode"

/-- A call of r2_metric that omits mode uses the declared default mode, the
string lfc (line 349); validation_step's call on line 332 omits it. -/
def r2MetricDefault (m : CPAModule) (r2vals : ℚ × ℚ) : Except String (ℚ × ℚ) :=
  r2Metric m r2vals "lfc"

/-- CPATrainingPlan.validation_step (cpa/_task.py lines 309-342): the loss pair
is bound to one name (line 312), r2_metric is called without a mode (line 332),
disentanglement is called (line 333), the adversarial metrics are fixed zeros
(lines 327-330) and the result list ends with recon_loss.item() (line 339) and
the composite cpa_metric (line 340).  The recon, kl, r2vals and disent numerics
come from the external collaborators. -/
def validationStepRun (m : CPAModule) (recon kl : ℚ) (r2vals disent : ℚ × ℚ) :
    Except String (List (String × ℚ)) :=
  let reconstructionLoss := lossFn m recon kl
  match r2MetricDefault m r2vals with
  | Except.error e => Except.error e
  | Except.ok rm =>
    match pyItem reconstructionLoss with
    | Except.error e => Except.error e
    | Except.ok rl =>
      Except.ok
        ([("adv_loss", 0), ("adv_drugs", 0), ("penalty_adv", 0), ("penalty_drugs", 0)]
          ++ m.covars_encoder.flatMap
            (fun kv => [("adv_" ++ kv.1, (0 : ℚ)), ("penalty_" ++ kv.1, (0 : ℚ))])
          ++ [("reg_mean", rm.1), ("reg_var", rm.2),
              ("disent_basal_drugs", disent.1), ("disent_drugs", disent.2),
              ("recon_loss", rl),
              ("cpa_metric", rm.1 + 1 - disent.1 + disent.2)])

/-- CPATrainingPlan.training_step (lines 220-274) at the level of optimizer
effects.  reconstruction_loss is the pair returned by CPAModule.loss; past
warmup the step first calls self.module.adversarial_loss (line 231), an
attribute CPAModule never defines, and hasAdvLossMethod records whether that
attribute exists; the model branch subtracts reg_adversary times the adversary
loss from the loss pair (line 245) before backpropagating.  The result is the
list of optimizers that completed step() and the exception raised, if any. -/
def trainingStepRun (nEpochsWarmup advSteps epoch iterCount : Nat) (lossVal : PyVal)
    (hasAdvLossMethod : Bool) (advLoss regAdversary : ℚ) : List Opt × Option String :=
  if nEpochsWarmup ≤ epoch then
    if hasAdvLossMethod then
      if iterCount % advSteps ≠ 0 then ([Opt.adversaryOpt], none)
      else
        match pySub lossVal (PyVal.tensor (regAdversary * advLoss)) with
        | Except.error e => ([], some e)
        | Except.ok v =>
          match manualBackward v with
          | Except.error e => ([], some e)
          | Except.ok _ => ([Opt.autoencoder, Opt.dosers], none)
    else ([], some "AttributeError: adversarial_loss")
  else
    match manualBackward lossVal with
    | Except.error e => ([], some e)
    | Except.ok _ => ([Opt.autoencoder, Opt.adversaryOpt], none)

/-- The constructor arguments of CPAModule.__init__ (lines 49-70), with the
learned sub-networks as opaque functions. -/
structure CPAArgs where
  n_genes : Nat
  n_perts : Nat
  covars_encoder : List (String × Nat)
  n_latent : Nat
  recon_loss : String
  doser_type : String
  variational : Bool
  encoder : Vec → Vec
  library_encoder : Vec → ℚ
  pert_network : Vec → Vec → Vec
  covars_embeddings : String → Nat → Vec
  torchLog : ℚ → ℚ

/-- CPAModule.__init__ (lines 49-175): recon_loss is lowercased (line 73) and
the assert on line 74 fires before any network is built; the decoder setup then
branches on the count likelihoods (line 117), the Gaussian one (line 141), and
an else raise (lines 152-153). -/
def mkCPAModule (a : CPAArgs) : Except String CPAModule :=
  let recon := pyLower a.recon_loss
  if recon ∈ ["gauss", "zinb", "nb"] then
    if recon ∈ ["zinb", "nb"] then
      Except.ok
        { n_genes := a.n_genes, n_perts := a.n_perts, n_latent := a.n_latent,
          recon_loss := recon, doser_type := a.doser_type, variational := a.variational,
          covars_encoder := a.covars_encoder, encoder := a.encoder,
          library_encoder := a.library_encoder, pert_network := a.pert_network,
          covars_embeddings := a.covars_embeddings, torchLog := a.torchLog }
    else if recon = "gauss" then
      Except.ok
        { n_genes := a.n_genes, n_perts := a.n_perts, n_latent := a.n_latent,
          recon_loss := recon, doser_type := a.doser_type, variational := a.variational,
          covars_encoder := a.covars_encoder, encoder := a.encoder,
          library_encoder := a.library_encoder, pert_network := a.pert_network,
          covars_embeddings := a.covars_embeddings, torchLog := a.torchLog }
    else Except.error "Invalid Loss function for Autoencoder"
  else Except.error "AssertionError: recon_loss"

/-- The likelihood family constructed by CPAModule.generative (lines 310-325):
nb, zinb, and otherwise the Gaussian Normal head. -/
inductive Likelihood where
  | nb
  | zinb
  | gaussNormal
deriving DecidableEq

/-- The branch generative takes, as a function of the configured likelihood. -/
def generativeBranch (m : CPAModule) : Likelihood :=
  if m.recon_loss = "nb" then Likelihood.nb
  else if m.recon_loss = "zinb" then Likelihood.zinb
  else Likelihood.gaussNormal

/-- np.ravel / tensor.view(-1): flatten a batched tensor to one vector. -/
def ravel (x : Mat) : Vec := x.flatMap (fun r => r)

/-- The covariate loop of CPAModule.disentanglement (lines 410-418): covariates
with more than one category contribute a purity score on both latents, with
neighbor count min(shape0 - 1, 30) where shape0 is the row count of the
covariate field. -/
def disentLoop (knnPurity : Mat → Vec → Nat → ℚ) (tensors : Tensors) (z_basal z : Mat) :
    List (String × Nat) → ℚ × ℚ → ℚ × ℚ
  | [], acc => acc
  | kv :: rest, acc =>
    if 1 < kv.2 then
      let target := tget tensors kv.1
      disentLoop knnPurity tensors z_basal z rest
        (acc.1 + knnPurity z_basal (ravel target) (min (target.length - 1) 30),
          acc.2 + knnPurity z (ravel target) (min (target.length - 1) 30))
    else disentLoop knnPurity tensors z_basal z rest acc

/-- CPAModule.disentanglement (lines 398-420).  knn_purity lives in
cpa/_metrics.py, which is not among the given sources; per the spec, section 6,
it is the external collaborator taking labeled latent vectors and a neighbor
count and returning the neighbor purity, so it enters as the opaque knnPurity
argument.  The perturbation labels use neighbor count min(shape0 - 1, 30) where
shape0 is the length of the flattened label vector (lines 402-408). -/
def disentanglement (m : CPAModule) (knnPurity : Mat → Vec → Nat → ℚ) (tensors : Tensors)
    (z_basal z : Mat) : ℚ × ℚ :=
  let names := ravel (tget tensors PERTURBATION_KEY)
  let knnBasal := knnPurity z_basal names (min (names.length - 1) 30)
  let knnAfter := knnPurity z names (min (names.length - 1) 30)
  disentLoop knnPurity tensors z_basal z m.covars_encoder (knnBasal, knnAfter)

/-- The neighbor counts passed to knn_purity by disentanglement, in call order. -/
def disentNeighborList (m : CPAModule) (tensors : Tensors) : List Nat :=
  let names := ravel (tget tensors PERTURBATION_KEY)
  min (names.length - 1) 30 :: min (names.length - 1) 30 ::
    m.covars_encoder.flatMap
      (fun kv =>
        if 1 < kv.2 then
          [min ((tget tensors kv.1).length - 1) 30, min ((tget tensors kv.1).length - 1) 30]
        else [])

/-- A concrete batch dictionary used in witnesses. -/
def wTensors : Tensors :=
  [(X_KEY, [[1, 2], [3, 4]]), (PERTURBATION_KEY, [[0], [1]]), (PERTURBATIONS, [[0], [1]]),
    (PERTURBATIONS_DOSAGES, [[1], [1]]), ("cvbatch", [[0], [1]])]

/-- A concrete batch dictionary with three cells used in the C7 witness. -/
def t7 : Tensors := [(PERTURBATION_KEY, [[0], [1], [2]]), ("cvbatch", [[0], [1], [0]])]

/-- A concrete purity collaborator that records its neighbor count. -/
def knn7 : Mat → Vec → Nat → ℚ := fun _ _ k => (k : ℚ)

/-- Concrete constructor arguments with an uppercase likelihood name. -/
def argsNB : CPAArgs :=
  { n_genes := 2, n_perts := 1, covars_encoder := [("cvbatch", 2)], n_latent := 2,
    recon_loss := "NB", doser_type := "logsigm", variational := false,
    encoder := fun v => v, library_encoder := fun _ => 0, pert_network := fun _ _ => [0, 0],
    covars_embeddings := fun _ _ => [0, 0], torchLog := fun t => t }

/-- Concrete constructor arguments with an unsupported likelihood name. -/
def argsBad : CPAArgs := { argsNB with recon_loss := "mse" }

/-- Claim C1 (amended): for every module, batch cell and mixup weight, the
composed latent z equals the elementwise sum of z_basal, the internal
perturbation latent vector, and z_covs, and the returned z_pert field is the
sum over latent coordinates of that internal perturbation vector. -/
theorem c1_additive_composition_amended (m : CPAModule) (inp : InferenceIn) (lam : ℚ) :
    (inference m inp lam).z
      = vadd (vadd (inference m inp lam).z_basal (zPertVec m inp lam))
          (inference m inp lam).z_covs
    ∧ (inference m inp lam).z_pert = vsum (zPertVec m inp lam) :=
  ⟨rfl, rfl⟩

/-- Claim C1 counterexample: two modules whose inference outputs agree on all
three returned components z_basal, z_pert and z_covs but differ in z, so z is
not reconstructible from the three returned components as the claim states. -/
theorem c1_returned_zpert_counterexample :
    (inference cm1 cinp 1).z_basal = (inference cm2 cinp 1).z_basal
    ∧ (inference cm1 cinp 1).z_covs = (inference cm2 cinp 1).z_covs
    ∧ (inference cm1 cinp 1).z_pert = (inference cm2 cinp 1).z_pert
    ∧ ¬ ((inference cm1 cinp 1).z = (inference cm2 cinp 1).z) := by
  refine ⟨rfl, rfl, ?_, ?_⟩ <;>
    norm_num [inference, zPertVec, zCovsLoop, vsum, vadd, smulV, cm1, cm2, cinp]

/-- Scaling a vector by one is the identity. -/
theorem smulV_one (v : Vec) : smulV 1 v = v := by
  simp [smulV]

/-- Adding a zero-scaled vector of at least the same length changes nothing. -/
theorem vadd_smulV_zero : ∀ v w : Vec, v.length ≤ w.length → vadd v (smulV 0 w) = v
  | [], _, _ => rfl
  | a :: v, [], h => by simp at h
  | a :: v, b :: w, h => by
    have ih := vadd_smulV_zero v w (Nat.le_of_succ_le_succ h)
    simp only [vadd, smulV, List.map_cons, List.zipWith_cons_cons, zero_mul, add_zero,
      List.cons.injEq, true_and] at ih ⊢
    exact ih

/-- The convex blend of two vectors at weight one is the first vector. -/
theorem blend_one (v w : Vec) (h : v.length ≤ w.length) :
    vadd (smulV 1 v) (smulV (1 - 1 : ℚ) w) = v := by
  have h0 : (1 - 1 : ℚ) = 0 := by norm_num
  rw [smulV_one, h0]
  exact vadd_smulV_zero v w h

/-- Row-wise version of blend_one. -/
theorem madd_one_zero : ∀ A B : Mat, A.length ≤ B.length →
    (∀ p ∈ A.zip B, p.1.length ≤ p.2.length) →
    madd (smulM 1 A) (smulM (1 - 1 : ℚ) B) = A
  | [], _, _, _ => rfl
  | a :: A, [], h, _ => by simp at h
  | a :: A, b :: B, h, hrow => by
    have hab : a.length ≤ b.length := hrow (a, b) (by simp)
    have ih := madd_one_zero A B (Nat.le_of_succ_le_succ h)
      (fun p hp => hrow p (by simp [hp]))
    simp only [madd, smulM] at ih ⊢
    simp only [List.map_cons, List.zipWith_cons_cons, List.cons.injEq]
    exact ⟨blend_one a b hab, ih⟩

/-- Reading the key just written returns the written value. -/
theorem tget_tset_same (t : Tensors) (k : String) (v : Mat) : tget (tset t k v) k = v := by
  simp [tget, tset]

/-- Reading a different key skips over a write. -/
theorem tget_tset_ne (t : Tensors) (k k2 : String) (v : Mat) (h : k2 ≠ k) :
    tget (tset t k v) k2 = tget t k2 := by
  simp [tget, tset, h]

/-- The covariate loop of mixup only writes the suffixed covariate keys. -/
theorem mixupCovarLoop_ne :
    ∀ (l : List (String × Nat)) (perm : List Nat) (t : Tensors) (key : String),
      (∀ kv ∈ l, key ≠ kv.1 ++ "_mixup") → tget (mixupCovarLoop l perm t) key = tget t key
  | [], _, _, _, _ => rfl
  | kv :: rest, perm, t, key, h => by
    have h1 : key ≠ kv.1 ++ "_mixup" := h kv (List.mem_cons_self kv rest)
    have ih := mixupCovarLoop_ne rest perm
      (tset t (kv.1 ++ "_mixup") (indexRows (tget t kv.1) perm)) key
      (fun kv2 hkv2 => h kv2 (List.mem_cons_of_mem kv hkv2))
    simp only [mixupCovarLoop]
    rw [ih, tget_tset_ne _ _ _ _ h1]

/-- At lambda = 1 the covariate accumulation of inference does not depend on
the mixup covariate indices. -/
theorem zCovsLoop_one (m : CPAModule) (cov covM covM2 : String → Nat)
    (hEmb : ∀ c i, (m.covars_embeddings c i).length = m.n_latent) :
    ∀ (l : List (String × Nat)) (acc : Vec),
      zCovsLoop m 1 cov covM l acc = zCovsLoop m 1 cov covM2 l acc := by
  intro l
  induction l with
  | nil => intro acc; rfl
  | cons kv rest ih =>
    intro acc
    simp only [zCovsLoop]
    by_cases hc : 1 < kv.2
    · rw [if_pos hc, if_pos hc]
      have h1 : (m.covars_embeddings kv.1 (cov kv.1)).length
          ≤ (m.covars_embeddings kv.1 (covM kv.1)).length := by rw [hEmb, hEmb]
      have h2 : (m.covars_embeddings kv.1 (cov kv.1)).length
          ≤ (m.covars_embeddings kv.1 (covM2 kv.1)).length := by rw [hEmb, hEmb]
      rw [blend_one _ _ h1, blend_one _ _ h2]
      exact ih _
    · rw [if_neg hc, if_neg hc]
      exact ih _

/-- At lambda = 1 inference is independent of the mixup fields: the perturbation
blend short-circuits to the true latent (line 267) and the covariate blend
collapses to the true embedding. -/
theorem inference_lambda_one (m : CPAModule) (xv pt dt pmA dmA pmB dmB : Vec)
    (cov cvmA cvmB : String → Nat)
    (hEmb : ∀ c i, (m.covars_embeddings c i).length = m.n_latent) :
    inference m
        { x := xv, pertsTrue := pt, dosesTrue := dt, pertsMixup := pmA,
          dosesMixup := dmA, covars := cov, covarsMixup := cvmA } 1
      = inference m
          { x := xv, pertsTrue := pt, dosesTrue := dt, pertsMixup := pmB,
            dosesMixup := dmB, covars := cov, covarsMixup := cvmB } 1 := by
  have hzp : ∀ pm dm : Vec, ∀ cvm : String → Nat,
      zPertVec m
          { x := xv, pertsTrue := pt, dosesTrue := dt, pertsMixup := pm,
            dosesMixup := dm, covars := cov, covarsMixup := cvm } 1 = m.pert_network pt dt := by
    intro pm dm cvm
    simp [zPertVec]
  have hzc := zCovsLoop_one m cov cvmA cvmB hEmb m.covars_encoder
  simp only [inference]
  rw [hzp, hzp, hzc]

/-- Claim C4: mixup_data with alpha = 0 sets lambda to 1 and leaves the blended
expression field and every original field exactly unchanged (only the suffixed
mixup keys are written), and at lambda = 1 inference gives the same outputs,
with the un-mixed perturbation and covariate latents, whatever the mixup fields
hold. -/
theorem c4_mixup_identity (m : CPAModule) (t : Tensors) (perm : List Nat) (beta : ℚ)
    (xv pt dt pmA dmA pmB dmB : Vec) (cov cvmA cvmB : String → Nat)
    (hrect : ∀ r ∈ tget t X_KEY, r.length = m.n_genes)
    (hplt : ∀ i ∈ perm, i < (tget t X_KEY).length)
    (hplen : perm.length = (tget t X_KEY).length)
    (hck : ∀ kv ∈ m.covars_encoder, X_KEY ≠ kv.1 ++ "_mixup")
    (hEmb : ∀ c i, (m.covars_embeddings c i).length = m.n_latent) :
    (mixup_data m t 0 perm beta).2 = 1
    ∧ tget (mixup_data m t 0 perm beta).1 X_KEY = tget t X_KEY
    ∧ (∀ key, key ∉ mixupWrittenKeys m →
        tget (mixup_data m t 0 perm beta).1 key = tget t key)
    ∧ inference m
          { x := xv, pertsTrue := pt, dosesTrue := dt, pertsMixup := pmA,
            dosesMixup := dmA, covars := cov, covarsMixup := cvmA } 1
      = inference m
          { x := xv, pertsTrue := pt, dosesTrue := dt, pertsMixup := pmB,
            dosesMixup := dmB, covars := cov, covarsMixup := cvmB } 1 := by
  have hlam : mixupLambda 0 beta = 1 := by simp [mixupLambda]
  refine ⟨hlam, ?_, ?_, inference_lambda_one m xv pt dt pmA dmA pmB dmB cov cvmA cvmB hEmb⟩
  · show tget (mixupApply m t perm (mixupLambda 0 beta)) X_KEY = tget t X_KEY
    rw [hlam]
    simp only [mixupApply]
    rw [mixupCovarLoop_ne _ _ _ _ hck, tget_tset_ne _ _ _ _ (by decide),
      tget_tset_ne _ _ _ _ (by decide), tget_tset_ne _ _ _ _ (by decide),
      tget_tset_ne _ _ _ _ (by decide), tget_tset_ne _ _ _ _ (by decide), tget_tset_same]
    have hlen : (tget t X_KEY).length ≤ (indexRows (tget t X_KEY) perm).length := by
      simp [indexRows, hplen]
    refine madd_one_zero _ _ hlen ?_
    intro p hp
    obtain ⟨h1, h2⟩ := List.of_mem_zip hp
    have e1 : p.1.length = m.n_genes := hrect p.1 h1
    have e2 : p.2.length = m.n_genes := by
      obtain ⟨i, hi, heq⟩ := List.mem_map.mp h2
      rw [← heq, List.getD_eq_getElem _ _ (hplt i hi)]
      exact hrect _ (List.getElem_mem _)
    rw [e1, e2]
  · intro key hk
    rw [mixupWrittenKeys, List.mem_append] at hk
    push_neg at hk
    obtain ⟨hkA, hkB⟩ := hk
    simp only [List.mem_cons, List.not_mem_nil, or_false, not_or] at hkA
    obtain ⟨n1, n2, n3, n4, n5, n6⟩ := hkA
    have kc : ∀ kv ∈ m.covars_encoder, key ≠ kv.1 ++ "_mixup" :=
      fun kv hkv he => hkB (List.mem_map.mpr ⟨kv, hkv, he.symm⟩)
    show tget (mixupApply m t perm (mixupLambda 0 beta)) key = tget t key
    simp only [mixupApply]
    rw [mixupCovarLoop_ne _ _ _ _ kc, tget_tset_ne _ _ _ _ n6, tget_tset_ne _ _ _ _ n5,
      tget_tset_ne _ _ _ _ n4, tget_tset_ne _ _ _ _ n3, tget_tset_ne _ _ _ _ n2,
      tget_tset_ne _ _ _ _ n1]

/-- Claim C4 witness at a concrete module, batch, permutation and Beta draw. -/
theorem c4_mixup_identity_witness :
    (∀ i ∈ ([1, 0] : List Nat), i < (tget wTensors X_KEY).length)
    ∧ (mixup_data cm1 wTensors 0 [1, 0] (1 / 2)).2 = 1 :=
  ⟨by decide, (c4_mixup_identity cm1 wTensors [1, 0] (1 / 2) [5, 6] [0] [1] [0] [2] [0] [3]
      (fun _ => 0) (fun _ => 1) (fun _ => 0) (by decide) (by decide) (by decide) (by decide)
      (fun _ _ => rfl)).1⟩

/-- Claim C2 (amended): with adversary_steps = 3 and any window of 9 consecutive
post-warmup steps starting at a counter divisible by 3, the branch pattern is
model, adversary, adversary repeated three times: exactly 6 adversary-only
updates and 3 autoencoder+doser updates, and for every counter value the
adversary branch is selected exactly when the counter mod 3 is nonzero. -/
theorem c2_alternation_amended (nw epoch q : Nat) (hE : nw ≤ epoch) :
    branchSeq nw 3 epoch (3 * q) 9
      = [Branch.model, Branch.adversary, Branch.adversary, Branch.model, Branch.adversary,
          Branch.adversary, Branch.model, Branch.adversary, Branch.adversary]
    ∧ (branchSeq nw 3 epoch (3 * q) 9).count Branch.adversary = 6
    ∧ (branchSeq nw 3 epoch (3 * q) 9).count Branch.model = 3
    ∧ (∀ k, trainingBranch nw 3 epoch k = Branch.adversary ↔ ¬ k % 3 = 0)
    ∧ stepsOf Branch.adversary = [Opt.adversaryOpt]
    ∧ stepsOf Branch.model = [Opt.autoencoder, Opt.dosers] := by
  have hb : ∀ i, trainingBranch nw 3 epoch i
      = if i % 3 ≠ 0 then Branch.adversary else Branch.model := by
    intro i
    simp [trainingBranch, hE]
  have hseq : branchSeq nw 3 epoch (3 * q) 9
      = (List.range 9).map (fun i => if i % 3 ≠ 0 then Branch.adversary else Branch.model) := by
    unfold branchSeq
    refine List.map_congr_left (fun i _ => ?_)
    rw [hb (3 * q + i), Nat.mul_add_mod]
  refine ⟨?_, ?_, ?_, ?_, rfl, rfl⟩
  · rw [hseq]; decide
  · rw [hseq]; decide
  · rw [hseq]; decide
  · intro k
    rw [hb k]
    by_cases hk : k % 3 = 0
    · simp [hk]
    · simp [hk]

/-- Claim C2 counterexample: from a post-warmup start the 9-step window holds 6
adversary branches, not 3, and the pattern is not adversary, model, model. -/
theorem c2_pattern_counterexample :
    (branchSeq 0 3 0 0 9).count Branch.adversary = 6
    ∧ ¬ ((branchSeq 0 3 0 0 9).count Branch.adversary = 3)
    ∧ ¬ (branchSeq 0 3 0 0 9
        = [Branch.adversary, Branch.model, Branch.model, Branch.adversary, Branch.model,
            Branch.model, Branch.adversary, Branch.model, Branch.model]) := by
  decide

/-- Claim C2 witness at warmup 0, epoch 0 and counter 0. -/
theorem c2_alternation_amended_witness :
    (0 ≤ 0)
    ∧ branchSeq 0 3 0 (3 * 0) 9
      = [Branch.model, Branch.adversary, Branch.adversary, Branch.model, Branch.adversary,
          Branch.adversary, Branch.model, Branch.adversary, Branch.adversary] :=
  ⟨Nat.le_refl 0, (c2_alternation_amended 0 0 0 (Nat.le_refl 0)).1⟩

/-- Claim C3 (amended): in every step of an epoch strictly before the warmup
count the warmup branch runs: only the reconstruction objective is
backpropagated, the autoencoder and adversary optimizers step (the adversary
step is the trivial zero-gradient one), the doser optimizer only has its
gradients zeroed and never steps, and every adversarial metric in the results
is 0. -/
theorem c3_warmup_amended (nw advSteps epoch k : Nat) (covars : List (String × Nat))
    (h : epoch < nw) :
    trainingBranch nw advSteps epoch k = Branch.warmup
    ∧ backpropOf Branch.warmup = LossExpr.reconOnly
    ∧ stepsOf Branch.warmup = [Opt.autoencoder, Opt.adversaryOpt]
    ∧ Opt.dosers ∉ stepsOf Branch.warmup
    ∧ Opt.dosers ∈ zeroGradsOf Branch.warmup
    ∧ ∀ p ∈ warmupAdvResults covars, p.2 = 0 := by
  refine ⟨?_, rfl, rfl, by decide, by decide, ?_⟩
  · unfold trainingBranch
    rw [if_neg (by omega)]
  · intro p hp
    simp only [warmupAdvResults, List.mem_append, List.mem_cons, List.not_mem_nil, or_false,
      List.mem_flatMap] at hp
    rcases hp with ((rfl | rfl | rfl | rfl) | ⟨kv, _, (rfl | rfl)⟩) <;> rfl

/-- Claim C3 counterexample: in a warmup-phase step the doser optimizer is not
among the optimizers that step, while the adversary optimizer is. -/
theorem c3_doser_step_counterexample :
    trainingBranch 5 3 0 0 = Branch.warmup
    ∧ Opt.dosers ∉ stepsOf (trainingBranch 5 3 0 0)
    ∧ Opt.adversaryOpt ∈ stepsOf (trainingBranch 5 3 0 0) := by
  decide

/-- Claim C3 witness at a concrete warmup configuration. -/
theorem c3_warmup_amended_witness :
    (0 < 1) ∧ Opt.dosers ∉ stepsOf Branch.warmup :=
  ⟨Nat.zero_lt_one, (c3_warmup_amended 1 3 0 0 [("cvbatch", 2)] Nat.zero_lt_one).2.2.2.1⟩

/-- Claim C5: for every batch and every value of the external metric inputs the
embedded validation_step raises the r2_metric assertion (its call on line 332
omits mode, whose default lfc fails the assert on line 351), so it never
returns its result dictionary, and in particular never the composite
cpa_metric. -/
theorem c5_validation_always_asserts (m : CPAModule) (recon kl : ℚ)
    (r2vals disent : ℚ × ℚ) :
    validationStepRun m recon kl r2vals disent = Except.error "AssertionError: mode" := by
  rfl

/-- The attribute list of a constructed module takes one of two concrete forms,
depending on the likelihood kind. -/
theorem moduleAttrs_cases (m : CPAModule) :
    moduleAttrs m
        = moduleAttrsCommon ++ ["px_r", "library_encoder", "decoder"] ++ moduleAttrsTail
    ∨ moduleAttrs m = moduleAttrsCommon ++ ["decoder"] ++ moduleAttrsTail := by
  unfold moduleAttrs
  by_cases h : m.recon_loss ∈ (["zinb", "nb"] : List String)
  · left; rw [if_pos h]
  · right; rw [if_neg h]

/-- No constructed module carries an adversarial_loss attribute. -/
theorem hasAdvLoss_false (m : CPAModule) :
    (moduleAttrs m).contains "adversarial_loss" = false := by
  rcases moduleAttrs_cases m with h | h <;> rw [h] <;> decide

/-- Claim C8: CPAModule.loss returns the pair (recon, kl); calling .item() on
that pair fails, calling manual_backward on it fails, and for every batch,
epoch and counter the embedded training_step performs no optimizer step and
raises (pre-warmup at manual_backward over the pair, post-warmup at the missing
adversarial_loss attribute), so the kl component never contributes to any
optimizer update; the embedded validation_step likewise raises before its
.item() call on the pair. -/
theorem c8_loss_pair_failure (m : CPAModule) (recon kl advLoss regAdv : ℚ)
    (nw advSteps epoch iterc : Nat) (r2vals disent : ℚ × ℚ) :
    lossFn m recon kl = PyVal.pair recon (if m.variational then kl else 0)
    ∧ pyItem (lossFn m recon kl) = Except.error "AttributeError: item"
    ∧ manualBackward (lossFn m recon kl) = Except.error "AttributeError: backward"
    ∧ (moduleAttrs m).contains "adversarial_loss" = false
    ∧ (trainingStepRun nw advSteps epoch iterc (lossFn m recon kl)
          ((moduleAttrs m).contains "adversarial_loss") advLoss regAdv).1 = []
    ∧ ((trainingStepRun nw advSteps epoch iterc (lossFn m recon kl)
          ((moduleAttrs m).contains "adversarial_loss") advLoss regAdv).2).isSome = true
    ∧ validationStepRun m recon kl r2vals disent = Except.error "AssertionError: mode" := by
  have hadv := hasAdvLoss_false m
  refine ⟨rfl, rfl, rfl, hadv, ?_, ?_, rfl⟩ <;>
  · rw [hadv]
    unfold trainingStepRun
    by_cases hE : nw ≤ epoch
    · rw [if_pos hE]; rfl
    · rw [if_neg hE]; rfl

/-- Claim C9: configure_optimizers reads drug_network, drugs_classifier,
covars_classifiers and covars_embedding, none of which a constructed CPAModule
defines (it defines pert_network and covars_embeddings instead and no
adversarial classifiers), so for every module the embedded optimizer
construction raises AttributeError at its first missing access, drug_network. -/
theorem c9_configure_optimizers_fails (m : CPAModule) :
    "drug_network" ∉ moduleAttrs m
    ∧ "drugs_classifier" ∉ moduleAttrs m
    ∧ "covars_classifiers" ∉ moduleAttrs m
    ∧ "covars_embedding" ∉ moduleAttrs m
    ∧ "pert_network" ∈ moduleAttrs m
    ∧ "covars_embeddings" ∈ moduleAttrs m
    ∧ configureOptimizersRun m = Except.error "AttributeError: drug_network" := by
  rcases moduleAttrs_cases m with h | h <;>
    simp only [configureOptimizersRun, h] <;>
    exact ⟨by decide, by decide, by decide, by decide, by decide, by decide, rfl⟩

/-- Claim C9 witness at the concrete module cm1. -/
theorem c9_configure_optimizers_fails_witness :
    "drug_network" ∉ moduleAttrs cm1 :=
  (c9_configure_optimizers_fails cm1).1

/-- Claim C10 (amended): r2_metric with its declared default mode lfc fails the
assertion, as does every call omitting mode, including the validation_step call;
it returns its values exactly when the lowercased mode equals direct (so an
explicit direct in any letter case succeeds, not only the exact string direct). -/
theorem c10_r2_mode_amended (m : CPAModule) (r2vals : ℚ × ℚ) :
    r2MetricDefault m r2vals = Except.error "AssertionError: mode"
    ∧ (∀ mode, r2Metric m r2vals mode = Except.ok r2vals ↔ pyLower mode = "direct")
    ∧ ∀ recon kl : ℚ, ∀ disent : ℚ × ℚ,
        validationStepRun m recon kl r2vals disent = Except.error "AssertionError: mode" := by
  refine ⟨rfl, ?_, fun recon kl disent => rfl⟩
  intro mode
  unfold r2Metric
  by_cases h : pyLower mode ∈ (["direct"] : List String)
  · rw [if_pos h]
    simp only [List.mem_singleton] at h
    simp [h]
  · rw [if_neg h]
    simp only [List.mem_singleton] at h
    exact iff_of_false (fun hh => Except.noConfusion hh) h

/-- Claim C10 counterexample: the call with the uppercase mode DIRECT, which is
not the string direct, also passes the assertion and succeeds. -/
theorem c10_mode_case_counterexample :
    r2Metric cm1 (0, 0) "DIRECT" = Except.ok (0, 0) ∧ "DIRECT" ≠ "direct" := by
  exact ⟨rfl, by decide⟩

/-- Claim C10 witness at the concrete module cm1. -/
theorem c10_r2_mode_amended_witness :
    r2MetricDefault cm1 (0, 0) = Except.error "AssertionError: mode" :=
  (c10_r2_mode_amended cm1 (0, 0)).1

/-- Claim C6 (amended): construction fails immediately, with the line-74
assertion, exactly when the lowercased recon_loss lies outside gauss, zinb, nb
(so e.g. the uppercase spelling NB is accepted); every successfully
constructed module stores one of the three lowercase kinds, the generative
else-branch serves exactly the gauss kind, and the unreachable
decoder-setup raise of lines 152-153 is never the outcome. -/
theorem c6_construction_amended (a : CPAArgs) :
    (pyLower a.recon_loss ∉ (["gauss", "zinb", "nb"] : List String) →
      mkCPAModule a = Except.error "AssertionError: recon_loss")
    ∧ (∀ m : CPAModule, mkCPAModule a = Except.ok m →
        m.recon_loss ∈ (["gauss", "zinb", "nb"] : List String)
        ∧ (generativeBranch m = Likelihood.gaussNormal ↔ m.recon_loss = "gauss"))
    ∧ ¬ mkCPAModule a = Except.error "Invalid Loss function for Autoencoder" := by
  by_cases h1 : pyLower a.recon_loss ∈ (["gauss", "zinb", "nb"] : List String)
  · have h1x := h1
    simp only [List.mem_cons, List.mem_singleton, List.not_mem_nil, or_false] at h1x
    rcases h1x with hg | hz | hn
    · refine ⟨fun hcon => absurd h1 hcon, ?_, ?_⟩
      · intro m hm
        simp only [mkCPAModule, hg, if_true] at hm
        injection hm with h2
        subst h2
        constructor
        · simp
        · simp [generativeBranch]
      · intro hh
        simp only [mkCPAModule, hg, if_true] at hh
        exact Except.noConfusion hh
    · refine ⟨fun hcon => absurd h1 hcon, ?_, ?_⟩
      · intro m hm
        simp only [mkCPAModule, hz, if_true] at hm
        injection hm with h2
        subst h2
        constructor
        · simp
        · simp [generativeBranch]
      · intro hh
        simp only [mkCPAModule, hz, if_true] at hh
        exact Except.noConfusion hh
    · refine ⟨fun hcon => absurd h1 hcon, ?_, ?_⟩
      · intro m hm
        simp only [mkCPAModule, hn, if_true] at hm
        injection hm with h2
        subst h2
        constructor
        · simp
        · simp [generativeBranch]
      · intro hh
        simp only [mkCPAModule, hn, if_true] at hh
        exact Except.noConfusion hh
  · refine ⟨fun _ => ?_, ?_, ?_⟩
    · simp only [mkCPAModule]
      rw [if_neg h1]
    · intro m hm
      simp only [mkCPAModule] at hm
      rw [if_neg h1] at hm
      exact Except.noConfusion hm
    · intro hh
      simp only [mkCPAModule] at hh
      rw [if_neg h1] at hh
      injection hh with hs
      exact absurd hs (by decide)

/-- Claim C6 counterexample: the uppercase spelling NB lies outside the set of
the claim, yet construction succeeds (it is lowercased first), storing nb. -/
theorem c6_lowercase_counterexample :
    ("NB" ∉ (["gauss", "nb", "zinb"] : List String))
    ∧ (mkCPAModule argsNB).toOption.isSome = true
    ∧ (mkCPAModule argsNB).toOption.map CPAModule.recon_loss = some "nb" := by
  refine ⟨by decide, by decide, ?_⟩
  decide

/-- Claim C6 witness: an unsupported likelihood name is rejected at once. -/
theorem c6_construction_amended_witness :
    (pyLower argsBad.recon_loss ∉ (["gauss", "zinb", "nb"] : List String))
    ∧ mkCPAModule argsBad = Except.error "AssertionError: recon_loss" :=
  ⟨by decide, (c6_construction_amended argsBad).1 (by decide)⟩

/-- When every covariate field has n rows, replacing each neighbor count in the
covariate purity loop by min 30 (n - 1) changes nothing: the loop already uses
that count everywhere. -/
theorem disentLoop_neighbors (knn : Mat → Vec → Nat → ℚ) (t : Tensors) (zb z : Mat)
    (n : Nat) :
    ∀ l : List (String × Nat), (∀ kv ∈ l, (tget t kv.1).length = n) →
      ∀ acc, disentLoop knn t zb z l acc
        = disentLoop (fun A L _x => knn A L (min 30 (n - 1))) t zb z l acc
  | [], _, acc => rfl
  | kv :: rest, hl, acc => by
    have hkv : (tget t kv.1).length = n := hl kv (List.mem_cons_self kv rest)
    have ih := disentLoop_neighbors knn t zb z n rest
      (fun kv2 h2 => hl kv2 (List.mem_cons_of_mem kv h2))
    by_cases hc : 1 < kv.2
    · simp only [disentLoop, if_pos hc]
      rw [hkv, Nat.min_comm (n - 1) 30]
      exact ih _
    · simp only [disentLoop, if_neg hc]
      exact ih acc

/-- Every neighbor count contributed by the covariate part of the neighbor list
equals min 30 (n - 1). -/
theorem disentFlat_mem (t : Tensors) (n : Nat) :
    ∀ l : List (String × Nat), (∀ kv ∈ l, (tget t kv.1).length = n) →
      ∀ k ∈ l.flatMap (fun kv =>
          if 1 < kv.2 then
            [min ((tget t kv.1).length - 1) 30, min ((tget t kv.1).length - 1) 30]
          else []),
        k = min 30 (n - 1)
  | [], _, k, hk => by simp at hk
  | kv :: rest, hl, k, hk => by
    have hkv : (tget t kv.1).length = n := hl kv (List.mem_cons_self kv rest)
    have ih := disentFlat_mem t n rest (fun kv2 h2 => hl kv2 (List.mem_cons_of_mem kv h2))
    simp only [List.flatMap_cons, List.mem_append] at hk
    rcases hk with hk | hk
    · by_cases hc : 1 < kv.2
      · rw [if_pos hc] at hk
        simp only [List.mem_cons, List.not_mem_nil, or_false] at hk
        rcases hk with rfl | rfl <;> rw [hkv, Nat.min_comm]
      · rw [if_neg hc] at hk
        exact absurd hk (List.not_mem_nil k)
    · exact ih k hk

/-- The covariate part of the neighbor list holds two entries per covariate
with more than one category. -/
theorem disentFlat_length (t : Tensors) :
    ∀ l : List (String × Nat),
      (l.flatMap (fun kv =>
          if 1 < kv.2 then
            [min ((tget t kv.1).length - 1) 30, min ((tget t kv.1).length - 1) 30]
          else [])).length
        = 2 * l.countP (fun kv => decide (1 < kv.2))
  | [] => rfl
  | kv :: rest => by
    have ih := disentFlat_length t rest
    simp only [List.flatMap_cons, List.length_append, List.countP_cons, ih]
    by_cases hc : 1 < kv.2
    · rw [if_pos hc, decide_eq_true hc]
      simp
      omega
    · rw [if_neg hc]
      simp [hc]

/-- Claim C7: for a batch of n cells (n at least 2, every per-cell label field
of n rows), disentanglement passes the neighbor count min(30, n - 1) to every
knn_purity call: replacing each call's count by min 30 (n - 1) leaves the
result unchanged, every entry of the neighbor-count list equals min 30 (n - 1),
and there are exactly 2 + 2 k such calls where k counts the covariates with
more than one category (two on the basal latent, two on the composed one for
the perturbation labels and for each such covariate). -/
theorem c7_knn_neighbor_count (m : CPAModule) (knn : Mat → Vec → Nat → ℚ) (t : Tensors)
    (zb z : Mat) (n : Nat) (_h2 : 2 ≤ n)
    (hpert : (ravel (tget t PERTURBATION_KEY)).length = n)
    (hcov : ∀ kv ∈ m.covars_encoder, (tget t kv.1).length = n) :
    disentanglement m knn t zb z
      = disentanglement m (fun A L _x => knn A L (min 30 (n - 1))) t zb z
    ∧ (∀ k ∈ disentNeighborList m t, k = min 30 (n - 1))
    ∧ (disentNeighborList m t).length
      = 2 + 2 * m.covars_encoder.countP (fun kv => decide (1 < kv.2)) := by
  refine ⟨?_, ?_, ?_⟩
  · simp only [disentanglement]
    rw [hpert, Nat.min_comm (n - 1) 30]
    exact disentLoop_neighbors knn t zb z n m.covars_encoder hcov _
  · intro k hk
    simp only [disentNeighborList, List.mem_cons] at hk
    rcases hk with rfl | rfl | hk
    · rw [hpert, Nat.min_comm]
    · rw [hpert, Nat.min_comm]
    · exact disentFlat_mem t n m.covars_encoder hcov k hk
  · simp only [disentNeighborList, List.length_cons, disentFlat_length t m.covars_encoder]
    omega

/-- Claim C7 witness on a three-cell batch with one two-category covariate. -/
theorem c7_knn_neighbor_count_witness :
    (2 ≤ 3) ∧ ∀ k ∈ disentNeighborList cm1 t7, k = min 30 (3 - 1) :=
  ⟨by decide,
    (c7_knn_neighbor_count cm1 knn7 t7 [] [] 3 (by decide) (by decide) (by decide)).2.1⟩
